import Mathlib

/-!
Verification of the detection-stream aggregation and annotation pipeline
(`count_objects.py`).

The Python source is shallowly embedded: floats (confidences, thresholds,
`time.time()` values) become `ℚ`; a Python `dict` built by insertion becomes
an insertion-ordered association list `List (String × Int)` with the
operations `dictGet` (lookup with default) and `dictSet` (update in place or
append); the cv2 drawing calls of `annotate_frame` become a list of `Draw`
records; file writes become pure values describing the produced content; the
streaming `main` loop becomes an explicit step function over a `LoopState`.
-/

/-- Python dict lookup with a default: `d.get(k, dflt)`. -/
def dictGet : List (String × Int) → String → Int → Int
  | [], _, dflt => dflt
  | p :: ps, k, dflt => if p.1 = k then p.2 else dictGet ps k dflt

/-- Python dict assignment `d[k] = v`: updates the first (unique) binding in
place keeping insertion order, or appends a new binding at the end. -/
def dictSet : List (String × Int) → String → Int → List (String × Int)
  | [], k, v => [(k, v)]
  | p :: ps, k, v => if p.1 = k then (k, v) :: ps else p :: dictSet ps k v

/-- The keys of a dict, in insertion order (`d.keys()`). -/
def dictKeys (d : List (String × Int)) : List String := d.map Prod.fst

/-- A bounding box `(x1, y1, x2, y2)` in (sub)pixel coordinates. -/
structure Box where
  x1 : ℚ
  y1 : ℚ
  x2 : ℚ
  y2 : ℚ
deriving DecidableEq

/-- One model detection: box, confidence and integer category id
(one element of the zipped `r.boxes` arrays). -/
structure Detection where
  box : Box
  conf : ℚ
  cls : ℕ
deriving DecidableEq

/-- Python `int()` on a float: truncation toward zero. -/
def pyInt (q : ℚ) : Int := if q < 0 then ⌈q⌉ else ⌊q⌋

/-- Rounding used by Python float formatting `:.0f`: to the nearest
integer, ties to even. -/
def roundHalfEven (q : ℚ) : Int :=
  let n : Int := ⌊q + 1/2⌋
  if q + 1/2 = (n : ℚ) ∧ n % 2 ≠ 0 then n - 1 else n

/-- Tallying of a single detection via `counts.get(label, 0) + 1`,
skipping it when `conf < conf_thresh` (lines 13–16). -/
def tallyDet (names : ℕ → String) (conf_thresh : ℚ)
    (counts : List (String × Int)) (d : Detection) : List (String × Int) :=
  if d.conf < conf_thresh then counts
  else dictSet counts (names d.cls) (dictGet counts (names d.cls) 0 + 1)

/-- Embedding of `sum(v for k, v in counts.items() if k != "__total")` (line 17). -/
def sumNonTotal (counts : List (String × Int)) : Int :=
  ((counts.filter (fun p => p.1 != "__total")).map Prod.snd).sum

/-- Embedding of `count_per_class(results, conf_thresh)` (lines 6–18): the nested loop
over `results` and the zipped box/conf/cls arrays of each result tallies every
detection above threshold, then stores the grand total inside the same dict
under the reserved key `"__total"`. -/
def count_per_class (results : List (List Detection)) (names : ℕ → String)
    (conf_thresh : ℚ) : List (String × Int) :=
  let counts := results.foldl (fun c r => r.foldl (tallyDet names conf_thresh) c) []
  dictSet counts "__total" (sumNonTotal counts)

/-- The per-category part of a counts dict: every binding except the
reserved `"__total"` key (as selected on lines 39 and 106). -/
def perCategory (counts : List (String × Int)) : List (String × Int) :=
  counts.filter (fun p => p.1 != "__total")

/-- The total reported for a counts dict: `counts.get("__total", 0)`. -/
def totalOf (counts : List (String × Int)) : Int :=
  dictGet counts "__total" 0

/-- The detections the code accepts: those NOT skipped by
`if conf < conf_thresh: continue` (lines 13–14 and 24–25). -/
def acceptedOf (detections : List Detection) (threshold : ℚ) : List Detection :=
  detections.filter (fun d => !decide (d.conf < threshold))

/-- The label text drawn for one detection (line 28):
the resolved name followed by the confidence as a rounded percentage. -/
def drawLabel (names : ℕ → String) (d : Detection) : String :=
  names d.cls ++ " " ++ toString (roundHalfEven (d.conf * 100)) ++ "%"

/-- The drawing produced for one accepted detection (lines 26–31): the
box rectangle with coordinates truncated to integers, and the label text. -/
structure Draw where
  rect : Int × Int × Int × Int
  label : String
deriving DecidableEq

/-- The `Draw` record emitted for a detection. -/
def drawOf (names : ℕ → String) (d : Detection) : Draw :=
  ⟨(pyInt d.box.x1, pyInt d.box.y1, pyInt d.box.x2, pyInt d.box.y2),
   drawLabel names d⟩

/-- Embedding of `annotate_frame(frame, r, names, conf_thresh)` (lines 20–32), abstracted
to the sequence of drawings it performs on the frame, in loop order.
Detections with `conf < conf_thresh` are skipped (lines 24–25). -/
def annotate_frame (r : List Detection) (names : ℕ → String)
    (conf_thresh : ℚ) : List Draw :=
  r.foldl (fun acc d =>
    if d.conf < conf_thresh then acc else acc ++ [drawOf names d]) []

/-- The order Python `sorted` uses on the `(k, v)` pairs of line 39:
lexicographic on the pair, strings by code points, then the count. -/
def pairLe (p q : String × Int) : Prop :=
  p.1 < q.1 ∨ (p.1 = q.1 ∧ p.2 ≤ q.2)

instance pairLe.decidableRel : DecidableRel pairLe := fun p q =>
  decidable_of_iff (p.1.data < q.1.data ∨ (p.1 = q.1 ∧ p.2 ≤ q.2))
    (or_congr (Iff.symm String.lt_iff_toList_lt) Iff.rfl)

instance pairLe.isTrans : IsTrans (String × Int) pairLe := by
  constructor
  intro a b c hab hbc
  rcases hab with h | ⟨e, h⟩ <;> rcases hbc with h' | ⟨e', h'⟩
  · exact Or.inl (lt_trans h h')
  · exact Or.inl (e' ▸ h)
  · exact Or.inl (e ▸ h')
  · exact Or.inr ⟨e.trans e', le_trans h h'⟩

instance pairLe.isTotal : IsTotal (String × Int) pairLe := by
  constructor
  intro a b
  rcases lt_trichotomy a.1 b.1 with h | h | h
  · exact Or.inl (Or.inl h)
  · rcases le_total a.2 b.2 with h' | h'
    · exact Or.inl (Or.inr ⟨h, h'⟩)
    · exact Or.inr (Or.inr ⟨h.symm, h'⟩)
  · exact Or.inr (Or.inl h)

/-- Python `sorted` on `(k, v)` pairs: the stable ascending sort. -/
def sortPairs (l : List (String × Int)) : List (String × Int) :=
  List.insertionSort pairLe l

/-- One CSV row as written by `csv.writer.writerow`. -/
def csvRow (p : String × Int) : List String := [p.1, toString p.2]

/-- Embedding of `save_counts_csv(counts, out_csv)` (lines 34–40), as the full content the
call leaves in the destination file. `open(out_csv, "w")` truncates the file,
so the previous content `oldFile` is discarded entirely; then the header row,
the total row, and the lexicographically sorted per-category rows are
written. -/
def save_counts_csv (counts : List (String × Int))
    (_oldFile : List (List String)) : List (List String) :=
  [["class", "count"], ["total", toString (dictGet counts "__total" 0)]]
    ++ (sortPairs (counts.filter (fun p => p.1 != "__total"))).map csvRow

/-- The command-line arguments relevant to the pipeline (lines 44–49):
confidence threshold, the `--save` flag, and the optional `--csv`
destination path (`None` by default). -/
structure Args where
  conf : ℚ
  save : Bool
  csv : Option String

/-- External input for one iteration of the streaming loop: the
model results for the frame, the value returned by `cv2.waitKey(1)`, the
wall-clock `time.time()` reading for the iteration, and whether an attempt
to open the CSV destination for writing would succeed at this time. -/
structure Frame where
  results : List (List Detection)
  key : ℕ
  t : ℚ
  writeOk : Bool

/-- The mutable state of the streaming loop (lines 89–118).
`last_csv_time` starts at `0` (line 90); `csvFile` is the content most
recently persisted to the CSV destination (`none` if never written);
`writes` records the times of the successful snapshot writes; `frames`
counts the iterations entered; `fatal` is set when an unhandled exception
(a failed CSV `open`) aborts the loop; `stopped` is set by the ESC key. -/
structure LoopState where
  last_counts : List (String × Int) := []
  last_csv_time : ℚ := 0
  csvFile : Option (List (List String)) := none
  writes : List ℚ := []
  frames : ℕ := 0
  fatal : Option String := none
  stopped : Bool := false

/-- One iteration of the `while True` loop (lines 91–118) on a frame that
was successfully read: run the model, annotate, recompute `counts` and
remember them in `last_counts`; on ESC (`key & 0xFF == 27`) break before the
CSV check; otherwise, if a CSV destination is configured and strictly more
than 2 time units have passed since `last_csv_time`, write the snapshot
(an unwritable destination raises and aborts the whole run) and record the
new `last_csv_time`. -/
def stepFrame (args : Args) (names : ℕ → String) (s : LoopState) (fr : Frame) :
    LoopState :=
  let counts := count_per_class fr.results names args.conf
  let s' := { s with last_counts := counts, frames := s.frames + 1 }
  if fr.key % 256 = 27 then { s' with stopped := true }
  else if args.csv.isSome ∧ fr.t - s'.last_csv_time > 2 then
    if fr.writeOk then
      { s' with csvFile := some (save_counts_csv counts []),
                last_csv_time := fr.t,
                writes := s'.writes ++ [fr.t] }
    else { s' with fatal := some "could not write csv" }
  else s'

/-- The `while True` loop (lines 91–118): frames are consumed in order until
the source is exhausted (`cap.read` returns false), ESC is pressed, or an
unhandled exception escapes an iteration. -/
def loopFrames (args : Args) (names : ℕ → String) :
    List Frame → LoopState → LoopState
  | [], s => s
  | fr :: rest, s =>
    let s' := stepFrame args names s fr
    if s'.stopped ∨ s'.fatal.isSome then s' else loopFrames args names rest s'

/-- The observable outcome of a run of the video/webcam branch of `main`
(lines 70–125). `fatalMsg` is the `SystemExit` / unhandled-exception message
(a run exits with status 0 exactly when it is `none`); `writerOpened` and
`windowOpened` record whether the `cv2.VideoWriter` sink and the display
window were ever created; `writesAtClose` counts the snapshot writes
performed after the loop has ended; `reportedFinal` records whether the
closing `"Final counts:" / "Saved CSV:"` messages were printed. -/
structure RunResult where
  fatalMsg : Option String
  writerOpened : Bool
  windowOpened : Bool
  loopState : LoopState
  writesAtClose : ℕ
  reportedFinal : Bool

/-- The process exit status: nonzero on `SystemExit`/unhandled exception. -/
def exitCode (r : RunResult) : ℕ := if r.fatalMsg.isSome then 1 else 0

/-- The video/webcam branch of `main` (lines 70–125). If the capture cannot
be opened, `raise SystemExit("Could not open source")` fires before the
writer sink, the window, and the loop (lines 71–73): nothing is created and
no frame is processed. Otherwise the writer is opened iff `--save` was given
(lines 76–84), the display window is created (line 87), the loop runs, and
the teardown of lines 120–125 releases the capture and sinks and — when at
least one snapshot was produced and a CSV destination is configured —
prints the final counts and the destination path. The teardown performs no
snapshot write of its own, hence `writesAtClose := 0`; if the loop died of
an unhandled exception the teardown prints are skipped. -/
def mainStream (sourceOpens : Bool) (args : Args) (names : ℕ → String)
    (frames : List Frame) : RunResult :=
  if sourceOpens then
    let s := loopFrames args names frames {}
    { fatalMsg := s.fatal
      writerOpened := args.save
      windowOpened := true
      loopState := s
      writesAtClose := 0
      reportedFinal := s.fatal = none ∧ s.last_counts ≠ [] ∧ args.csv.isSome }
  else
    { fatalMsg := some "Could not open source"
      writerOpened := false
      windowOpened := false
      loopState := {}
      writesAtClose := 0
      reportedFinal := false }

/-- The observable outcome of the single-image branch of `main`
(lines 53–68). -/
structure StillResult where
  fatalMsg : Option String
  counts : List (String × Int)
  csvFile : Option (List (List String))
  annotatedSaved : Bool

/-- The single-image branch of `main` (lines 53–68): run the model once,
aggregate the counts, then — if `--csv` was given — write the snapshot
unconditionally (an unwritable destination raises an unhandled I/O error,
aborting before any annotated image is saved), and finally save the
annotated still iff `--save` was given. -/
def mainStill (args : Args) (names : ℕ → String)
    (results : List (List Detection)) (csvWritable : Bool) : StillResult :=
  let counts := count_per_class results names args.conf
  if args.csv.isSome then
    if csvWritable then
      { fatalMsg := none
        counts := counts
        csvFile := some (save_counts_csv counts [])
        annotatedSaved := args.save }
    else
      { fatalMsg := some "could not write csv"
        counts := counts
        csvFile := none
        annotatedSaved := false }
  else
    { fatalMsg := none
      counts := counts
      csvFile := none
      annotatedSaved := args.save }

/-! ### Association-list (Python dict) lemmas -/

theorem dictGet_dictSet_self (d : List (String × Int)) (k : String) (v dflt : Int) :
    dictGet (dictSet d k v) k dflt = v := by
  induction d with
  | nil => simp [dictSet, dictGet]
  | cons p ps ih =>
    by_cases h : p.1 = k
    · simp [dictSet, dictGet, h]
    · simp [dictSet, dictGet, h, ih]

theorem dictGet_dictSet_ne (d : List (String × Int)) {k k' : String} (v dflt : Int)
    (h : k' ≠ k) : dictGet (dictSet d k v) k' dflt = dictGet d k' dflt := by
  have h' : ¬ (k = k') := fun e => h e.symm
  induction d with
  | nil => simp [dictSet, dictGet, h']
  | cons p ps ih =>
    by_cases hp : p.1 = k
    · have hpk' : ¬ (p.1 = k') := by rw [hp]; exact h'
      simp [dictSet, dictGet, hp, h', hpk']
    · by_cases hp' : p.1 = k'
      · simp [dictSet, dictGet, hp, hp', h]
      · simp [dictSet, dictGet, hp, hp', ih]

theorem mem_dictSet (d : List (String × Int)) (k : String) (v : Int) :
    ∀ p ∈ dictSet d k v, p ∈ d ∨ p = (k, v) := by
  induction d with
  | nil => simp [dictSet]
  | cons q qs ih =>
    intro p hp
    by_cases h : q.1 = k
    · simp only [dictSet, if_pos h, List.mem_cons] at hp
      rcases hp with h' | h'
      · exact Or.inr h'
      · exact Or.inl (List.mem_cons_of_mem _ h')
    · simp only [dictSet, if_neg h, List.mem_cons] at hp
      rcases hp with h' | h'
      · exact Or.inl (h' ▸ List.mem_cons_self _ _)
      · rcases ih p h' with h'' | h''
        · exact Or.inl (List.mem_cons_of_mem _ h'')
        · exact Or.inr h''

theorem mem_dictKeys_dictSet (d : List (String × Int)) (k : String) (v : Int)
    (a : String) : a ∈ dictKeys (dictSet d k v) ↔ a ∈ dictKeys d ∨ a = k := by
  induction d with
  | nil => simp [dictSet, dictKeys]
  | cons p ps ih =>
    by_cases h : p.1 = k
    · simp only [dictSet, if_pos h, dictKeys, List.map_cons, List.mem_cons]
      constructor
      · rintro (h' | h')
        · exact Or.inr h'
        · exact Or.inl (Or.inr h')
      · rintro ((h' | h') | h')
        · exact Or.inl (h ▸ h')
        · exact Or.inr h'
        · exact Or.inl h'
    · simp only [dictSet, if_neg h, dictKeys, List.map_cons, List.mem_cons] at ih ⊢
      rw [ih]
      tauto

theorem filter_dictSet_total (d : List (String × Int)) (v : Int) :
    (dictSet d "__total" v).filter (fun p => p.1 != "__total")
      = d.filter (fun p => p.1 != "__total") := by
  induction d with
  | nil => simp [dictSet]
  | cons p ps ih =>
    by_cases h : p.1 = "__total"
    · simp [dictSet, h, List.filter_cons]
    · simp only [dictSet, if_neg h, List.filter_cons]
      simp only [bne_iff_ne, ne_eq, h, not_false_eq_true, if_pos, decide_not]
      rw [ih]

theorem sumNonTotal_dictSet_total (d : List (String × Int)) (v : Int) :
    sumNonTotal (dictSet d "__total" v) = sumNonTotal d := by
  unfold sumNonTotal
  rw [filter_dictSet_total]

theorem sumNonTotal_dictSet_incr (d : List (String × Int)) {k : String}
    (h : k ≠ "__total") :
    sumNonTotal (dictSet d k (dictGet d k 0 + 1)) = sumNonTotal d + 1 := by
  induction d with
  | nil => simp [dictSet, dictGet, sumNonTotal, List.filter_cons, h]
  | cons p ps ih =>
    by_cases hp : p.1 = k
    · have hp' : p.1 ≠ "__total" := hp ▸ h
      simp [dictSet, dictGet, hp, sumNonTotal, List.filter_cons, h, hp']
      ring
    · by_cases hq : p.1 = "__total"
      · have : dictGet (p :: ps) k 0 = dictGet ps k 0 := by
          simp [dictGet, hp]
        simp only [dictSet, if_neg hp, sumNonTotal, List.filter_cons, this] at ih ⊢
        simp only [hq, bne_self_eq_false, Bool.false_eq_true, if_neg, not_false_eq_true]
        exact ih
      · have : dictGet (p :: ps) k 0 = dictGet ps k 0 := by
          simp [dictGet, hp]
        simp only [dictSet, if_neg hp, sumNonTotal, List.filter_cons, this] at ih ⊢
        simp only [bne_iff_ne, ne_eq, hq, not_false_eq_true, if_pos, decide_not]
        simp only [List.map_cons, List.sum_cons] at ih ⊢
        rw [ih]
        ring

/-! ### Filter and tally lemmas -/

theorem accepted_cons (d : Detection) (D : List Detection) (t : ℚ) :
    acceptedOf (d :: D) t
      = if d.conf < t then acceptedOf D t else d :: acceptedOf D t := by
  by_cases h : d.conf < t <;> simp [acceptedOf, List.filter_cons, h]

theorem count_per_class_eq_flat (results : List (List Detection))
    (names : ℕ → String) (t : ℚ) :
    count_per_class results names t
      = dictSet (results.flatten.foldl (tallyDet names t) []) "__total"
          (sumNonTotal (results.flatten.foldl (tallyDet names t) [])) := by
  simp only [count_per_class]
  rw [← List.foldl_flatten]

theorem dictGet_nonneg (c : List (String × Int)) (k : String)
    (hc : ∀ p ∈ c, 1 ≤ p.2) : 0 ≤ dictGet c k 0 := by
  induction c with
  | nil => simp [dictGet]
  | cons q qs ih =>
    by_cases h : q.1 = k
    · simp only [dictGet, if_pos h]
      exact le_trans (by norm_num) (hc q (List.mem_cons_self _ _))
    · simp only [dictGet, if_neg h]
      exact ih fun p hp => hc p (List.mem_cons_of_mem _ hp)

theorem tally_foldl_get (names : ℕ → String) (t : ℚ) (D : List Detection)
    (c : List (String × Int)) (k : String) :
    dictGet (D.foldl (tallyDet names t) c) k 0
      = dictGet c k 0
        + (((acceptedOf D t).filter (fun d => names d.cls == k)).length : Int) := by
  induction D generalizing c with
  | nil => simp [acceptedOf]
  | cons d D ih =>
    rw [List.foldl_cons]
    by_cases h : d.conf < t
    · rw [ih]
      simp [tallyDet, h, accepted_cons]
    · by_cases hk : names d.cls = k
      · rw [ih]
        simp only [tallyDet, if_neg h, hk]
        rw [dictGet_dictSet_self]
        simp [accepted_cons, h, List.filter_cons, hk]
        ring
      · rw [ih]
        simp only [tallyDet, if_neg h]
        rw [dictGet_dictSet_ne _ _ _ (fun e => hk e.symm)]
        simp [accepted_cons, h, List.filter_cons, hk]

theorem tally_foldl_mem_keys (names : ℕ → String) (t : ℚ) (D : List Detection)
    (c : List (String × Int)) (a : String) :
    a ∈ dictKeys (D.foldl (tallyDet names t) c)
      ↔ a ∈ dictKeys c ∨ ∃ d ∈ acceptedOf D t, names d.cls = a := by
  induction D generalizing c with
  | nil => simp [acceptedOf]
  | cons d D ih =>
    rw [List.foldl_cons]
    by_cases h : d.conf < t
    · simp only [tallyDet, if_pos h, ih, accepted_cons]
    · simp only [tallyDet, if_neg h, ih, accepted_cons]
      rw [mem_dictKeys_dictSet]
      simp only [if_neg h, List.mem_cons]
      constructor
      · rintro ((hc | he) | ⟨d', hd', he'⟩)
        · exact Or.inl hc
        · exact Or.inr ⟨d, Or.inl rfl, he.symm⟩
        · exact Or.inr ⟨d', Or.inr hd', he'⟩
      · rintro (hc | ⟨d', hd' | hd', he'⟩)
        · exact Or.inl (Or.inl hc)
        · subst hd'
          exact Or.inl (Or.inr he'.symm)
        · exact Or.inr ⟨d', hd', he'⟩

theorem tally_foldl_sum (names : ℕ → String) (t : ℚ) (D : List Detection)
    (c : List (String × Int)) :
    sumNonTotal (D.foldl (tallyDet names t) c)
      = sumNonTotal c
        + (((acceptedOf D t).filter
            (fun d => names d.cls != "__total")).length : Int) := by
  induction D generalizing c with
  | nil => simp [acceptedOf]
  | cons d D ih =>
    rw [List.foldl_cons]
    by_cases h : d.conf < t
    · rw [ih]
      simp [tallyDet, h, accepted_cons]
    · by_cases hk : names d.cls = "__total"
      · rw [ih]
        simp only [tallyDet, if_neg h, hk, sumNonTotal_dictSet_total]
        simp [accepted_cons, h, List.filter_cons, hk]
      · rw [ih]
        simp only [tallyDet, if_neg h]
        rw [sumNonTotal_dictSet_incr _ hk]
        simp [accepted_cons, h, List.filter_cons, hk]
        ring

theorem tally_foldl_pos (names : ℕ → String) (t : ℚ) (D : List Detection) :
    ∀ c, (∀ p ∈ c, 1 ≤ p.2) → ∀ p ∈ D.foldl (tallyDet names t) c, 1 ≤ p.2 := by
  induction D with
  | nil => exact fun c hc => hc
  | cons d D ih =>
    intro c hc
    rw [List.foldl_cons]
    by_cases h : d.conf < t
    · simp only [tallyDet, if_pos h]
      exact ih c hc
    · simp only [tallyDet, if_neg h]
      refine ih _ ?_
      intro p hp
      rcases mem_dictSet _ _ _ p hp with h' | h'
      · exact hc p h'
      · subst h'
        have := dictGet_nonneg c (names d.cls) hc
        simpa using by omega

theorem tally_foldl_eq_accepted (names : ℕ → String) (t : ℚ)
    (D : List Detection) (c : List (String × Int)) :
    D.foldl (tallyDet names t) c = (acceptedOf D t).foldl (tallyDet names t) c := by
  induction D generalizing c with
  | nil => simp [acceptedOf]
  | cons d D ih =>
    by_cases h : d.conf < t
    · rw [List.foldl_cons, accepted_cons, if_pos h]
      simpa [tallyDet, h] using ih c
    · rw [List.foldl_cons, accepted_cons, if_neg h, List.foldl_cons]
      exact ih _

theorem annotate_foldl (names : ℕ → String) (t : ℚ) (r : List Detection)
    (acc : List Draw) :
    r.foldl (fun acc d => if d.conf < t then acc else acc ++ [drawOf names d]) acc
      = acc ++ (acceptedOf r t).map (drawOf names) := by
  induction r generalizing acc with
  | nil => simp [acceptedOf]
  | cons d r ih =>
    by_cases h : d.conf < t <;>
      simp [List.foldl_cons, h, ih, accepted_cons]

theorem annotate_frame_eq (r : List Detection) (names : ℕ → String) (t : ℚ) :
    annotate_frame r names t = (acceptedOf r t).map (drawOf names) := by
  unfold annotate_frame
  rw [annotate_foldl]
  simp

/-! ### Claims about the Detection Filter and the Count Aggregator -/

/-- Claim C2: for every detection sequence and every threshold, a detection
is kept iff its confidence is at least the threshold (equality kept); the
filtered sequence is a sublist of the input (order preserved); and the same
acceptance rule drives both the counting path (`count_per_class`, the tally
fold) and the annotation path (`annotate_frame`). -/
theorem detection_filter_spec (D : List Detection) (names : ℕ → String) (t : ℚ) :
    (acceptedOf D t).Sublist D
    ∧ (∀ d, d ∈ acceptedOf D t ↔ d ∈ D ∧ t ≤ d.conf)
    ∧ (∀ c, D.foldl (tallyDet names t) c
        = (acceptedOf D t).foldl (tallyDet names t) c)
    ∧ annotate_frame D names t = (acceptedOf D t).map (drawOf names) := by
  refine ⟨List.filter_sublist _, ?_,
    fun c => tally_foldl_eq_accepted names t D c, annotate_frame_eq D names t⟩
  intro d
  simp [acceptedOf, List.mem_filter, not_lt]

/-- Claim C8: the number of accepted detections is monotonically
non-increasing in the threshold. -/
theorem accepted_count_antitone (D : List Detection) (t1 t2 : ℚ) (h : t1 ≤ t2) :
    (acceptedOf D t2).length ≤ (acceptedOf D t1).length := by
  apply List.Sublist.length_le
  apply List.monotone_filter_right
  intro d hd
  simp only [Bool.not_eq_true', decide_eq_false_iff_not, not_lt] at hd ⊢
  exact le_trans h hd

/-- Witness for claim C8 at a concrete input. -/
theorem accepted_count_antitone_witness :
    (0 : ℚ) ≤ 1
    ∧ (acceptedOf [⟨⟨0, 0, 0, 0⟩, 1, 0⟩] 1).length
        ≤ (acceptedOf [⟨⟨0, 0, 0, 0⟩, 1, 0⟩] 0).length :=
  ⟨by norm_num, accepted_count_antitone [⟨⟨0, 0, 0, 0⟩, 1, 0⟩] 0 1 (by norm_num)⟩

/-- Counterexample to claim C3 as stated: with a label mapping that resolves
a category to the reserved string used for the total key, the aggregate of
one accepted detection reports total 0 while the accepted sequence has
length 1, so the sum of the per-category counts differs from the number of
accepted detections. -/
theorem count_totals_counterexample :
    ¬ (totalOf (count_per_class [[⟨⟨0, 0, 0, 0⟩, 1, 0⟩]] (fun _ => "__total") 0)
          = sumNonTotal (count_per_class [[⟨⟨0, 0, 0, 0⟩, 1, 0⟩]]
              (fun _ => "__total") 0)
        ∧ sumNonTotal (count_per_class [[⟨⟨0, 0, 0, 0⟩, 1, 0⟩]]
              (fun _ => "__total") 0)
          = ((acceptedOf ([[⟨⟨0, 0, 0, 0⟩, 1, 0⟩]] :
              List (List Detection)).flatten 0).length : Int)) := by
  decide

/-- Claim C3 (amended): the reported total equals the sum of the
per-category counts unconditionally, and the empty input yields an empty
per-category mapping with total 0; the sum equals the number of accepted
detections provided no accepted detection resolves to the reserved label
(the one clause the counterexample refutes). -/
theorem count_totals (results : List (List Detection)) (names : ℕ → String)
    (t : ℚ) :
    totalOf (count_per_class results names t)
        = sumNonTotal (count_per_class results names t)
    ∧ ((∀ d ∈ results.flatten, ¬ (d.conf < t) → names d.cls ≠ "__total") →
        sumNonTotal (count_per_class results names t)
          = ((acceptedOf results.flatten t).length : Int))
    ∧ perCategory (count_per_class [] names t) = []
    ∧ totalOf (count_per_class [] names t) = 0 := by
  rw [count_per_class_eq_flat]
  refine ⟨?_, ?_, rfl, rfl⟩
  · rw [totalOf, dictGet_dictSet_self, sumNonTotal_dictSet_total]
  · intro h
    rw [sumNonTotal_dictSet_total, tally_foldl_sum]
    have : (acceptedOf results.flatten t).filter
        (fun d => names d.cls != "__total") = acceptedOf results.flatten t := by
      apply List.filter_eq_self.mpr
      intro d hd
      have hd' := (List.mem_filter.mp hd)
      simp only [Bool.not_eq_true', decide_eq_false_iff_not] at hd'
      simpa using h d hd'.1 hd'.2
    rw [this]
    simp [sumNonTotal]

/-- Witness for claim C3 (amended) at a concrete input, discharging the
no-reserved-label hypothesis of the second conjunct there. -/
theorem count_totals_witness :
    (∀ d ∈ ([[⟨⟨0, 0, 0, 0⟩, 1, 0⟩]] : List (List Detection)).flatten,
        ¬ (d.conf < 0) → (fun _ : ℕ => "cat") d.cls ≠ "__total")
    ∧ totalOf (count_per_class [[⟨⟨0, 0, 0, 0⟩, 1, 0⟩]] (fun _ => "cat") 0)
        = sumNonTotal (count_per_class [[⟨⟨0, 0, 0, 0⟩, 1, 0⟩]] (fun _ => "cat") 0)
    ∧ sumNonTotal (count_per_class [[⟨⟨0, 0, 0, 0⟩, 1, 0⟩]] (fun _ => "cat") 0)
        = ((acceptedOf ([[⟨⟨0, 0, 0, 0⟩, 1, 0⟩]] :
            List (List Detection)).flatten 0).length : Int) :=
  ⟨by decide,
    (count_totals [[⟨⟨0, 0, 0, 0⟩, 1, 0⟩]] (fun _ => "cat") 0).1,
    (count_totals [[⟨⟨0, 0, 0, 0⟩, 1, 0⟩]] (fun _ => "cat") 0).2.1 (by decide)⟩

/-- Counterexample to claim C9 as stated: when an accepted detection
resolves to the reserved label, that label does not appear as a key of the
per-category mapping, refuting the claimed equivalence. -/
theorem category_keys_counterexample :
    ¬ (("__total" ∈ dictKeys (perCategory
            (count_per_class [[⟨⟨0, 0, 0, 0⟩, 1, 0⟩]] (fun _ => "__total") 0)))
        ↔ ∃ d ∈ acceptedOf ([[⟨⟨0, 0, 0, 0⟩, 1, 0⟩]] :
            List (List Detection)).flatten 0,
            (fun _ : ℕ => "__total") d.cls = "__total") := by
  decide

/-- Claim C9 (amended): every binding of the per-category mapping has count
at least 1, and a label other than the reserved one appears as a key of the
aggregated counts iff at least one accepted detection resolves to it. -/
theorem category_keys (results : List (List Detection)) (names : ℕ → String)
    (t : ℚ) :
    (∀ p ∈ perCategory (count_per_class results names t), 1 ≤ p.2)
    ∧ (∀ l, l ≠ "__total" →
        (l ∈ dictKeys (count_per_class results names t)
          ↔ ∃ d ∈ acceptedOf results.flatten t, names d.cls = l)) := by
  rw [count_per_class_eq_flat]
  constructor
  · intro p hp
    rw [perCategory, filter_dictSet_total] at hp
    exact tally_foldl_pos names t results.flatten [] (by simp)
      p (List.mem_filter.mp hp).1
  · intro l hl
    rw [mem_dictKeys_dictSet, tally_foldl_mem_keys]
    simp [dictKeys, hl]

/-- Witness for claim C9 (amended) at a concrete input. -/
theorem category_keys_witness :
    ("cat" : String) ≠ "__total"
    ∧ "cat" ∈ dictKeys (count_per_class [[⟨⟨0, 0, 0, 0⟩, 1, 0⟩]]
        (fun _ => "cat") 0) :=
  ⟨by decide,
    ((category_keys [[⟨⟨0, 0, 0, 0⟩, 1, 0⟩]] (fun _ => "cat") 0).2 "cat"
        (by decide)).mpr ⟨⟨⟨0, 0, 0, 0⟩, 1, 0⟩, by decide, rfl⟩⟩

/-- Claim C10: accepted detections whose resolved label is exactly the
reserved total key are first tallied under it and then clobbered by the
computed total, so the reported total counts only the other detections, it
differs from the number of accepted detections, and the reserved key never
appears among the per-category rows. -/
theorem reserved_key_behavior (results : List (List Detection))
    (names : ℕ → String) (t : ℚ)
    (h : ∃ d ∈ acceptedOf results.flatten t, names d.cls = "__total") :
    totalOf (count_per_class results names t)
        = (((acceptedOf results.flatten t).filter
            (fun d => names d.cls != "__total")).length : Int)
    ∧ totalOf (count_per_class results names t)
        ≠ ((acceptedOf results.flatten t).length : Int)
    ∧ "__total" ∉ dictKeys (perCategory (count_per_class results names t)) := by
  have h1 : totalOf (count_per_class results names t)
      = (((acceptedOf results.flatten t).filter
          (fun d => names d.cls != "__total")).length : Int) := by
    rw [count_per_class_eq_flat, totalOf, dictGet_dictSet_self, tally_foldl_sum]
    simp [sumNonTotal]
  refine ⟨h1, ?_, ?_⟩
  · rw [h1]
    rcases h with ⟨d, hd, hld⟩
    have hlt : ((acceptedOf results.flatten t).filter
        (fun d => names d.cls != "__total")).length
        < (acceptedOf results.flatten t).length := by
      apply List.length_filter_lt_length_iff_exists.mpr
      exact ⟨d, hd, by simp [hld]⟩
    intro he
    have := Nat.cast_inj.mp he
    omega
  · simp [perCategory, dictKeys, List.mem_map, List.mem_filter]

/-- Witness for claim C10 at a concrete input. -/
theorem reserved_key_behavior_witness :
    (∃ d ∈ acceptedOf ([[⟨⟨0, 0, 0, 0⟩, 1, 0⟩]] :
        List (List Detection)).flatten 0,
        (fun _ : ℕ => "__total") d.cls = "__total")
    ∧ totalOf (count_per_class [[⟨⟨0, 0, 0, 0⟩, 1, 0⟩]] (fun _ => "__total") 0)
        ≠ ((acceptedOf ([[⟨⟨0, 0, 0, 0⟩, 1, 0⟩]] :
            List (List Detection)).flatten 0).length : Int) :=
  ⟨by decide, (reserved_key_behavior [[⟨⟨0, 0, 0, 0⟩, 1, 0⟩]]
      (fun _ => "__total") 0 (by decide)).2.1⟩

/-! ### Claim about the Snapshot Writer format -/

/-- Claim C4: the CSV serialization is exactly the header row, then the
total row, then one row per category sorted lexicographically by label, and
each call produces the full destination content regardless of what was
there before (overwrite, not append). -/
theorem csv_format (counts : List (String × Int)) (oldFile : List (List String)) :
    save_counts_csv counts oldFile = save_counts_csv counts []
    ∧ save_counts_csv counts oldFile
        = ["class", "count"]
          :: ["total", toString (totalOf counts)]
          :: (sortPairs (perCategory counts)).map csvRow
    ∧ (sortPairs (perCategory counts)).Perm (perCategory counts)
    ∧ List.Sorted (· ≤ ·) ((sortPairs (perCategory counts)).map Prod.fst) := by
  refine ⟨rfl, rfl, List.perm_insertionSort _ _, ?_⟩
  have hs : List.Sorted pairLe (sortPairs (perCategory counts)) :=
    List.sorted_insertionSort pairLe _
  refine List.Pairwise.map _ ?_ hs
  intro a b hab
  rcases hab with h | ⟨h, _⟩
  · exact le_of_lt h
  · exact le_of_eq h

/-! ### Stream-loop step lemmas -/

theorem stepFrame_esc (args : Args) (names : ℕ → String) (s : LoopState)
    (fr : Frame) (hk : fr.key % 256 = 27) :
    stepFrame args names s fr
      = { s with last_counts := count_per_class fr.results names args.conf,
                 frames := s.frames + 1, stopped := true } := by
  simp [stepFrame, hk]

theorem stepFrame_write (args : Args) (names : ℕ → String) (s : LoopState)
    (fr : Frame) (hk : ¬ fr.key % 256 = 27) (hcsv : args.csv.isSome)
    (ht : fr.t - s.last_csv_time > 2) (hw : fr.writeOk = true) :
    stepFrame args names s fr
      = { s with last_counts := count_per_class fr.results names args.conf,
                 frames := s.frames + 1,
                 csvFile := some (save_counts_csv
                    (count_per_class fr.results names args.conf) []),
                 last_csv_time := fr.t,
                 writes := s.writes ++ [fr.t] } := by
  simp [stepFrame, hk, hcsv, ht, hw]

theorem stepFrame_fail (args : Args) (names : ℕ → String) (s : LoopState)
    (fr : Frame) (hk : ¬ fr.key % 256 = 27) (hcsv : args.csv.isSome)
    (ht : fr.t - s.last_csv_time > 2) (hw : fr.writeOk = false) :
    stepFrame args names s fr
      = { s with last_counts := count_per_class fr.results names args.conf,
                 frames := s.frames + 1,
                 fatal := some "could not write csv" } := by
  simp [stepFrame, hk, hcsv, ht, hw]

theorem stepFrame_skip (args : Args) (names : ℕ → String) (s : LoopState)
    (fr : Frame) (hk : ¬ fr.key % 256 = 27)
    (hno : ¬ (args.csv.isSome ∧ fr.t - s.last_csv_time > 2)) :
    stepFrame args names s fr
      = { s with last_counts := count_per_class fr.results names args.conf,
                 frames := s.frames + 1 } := by
  simp only [stepFrame]
  rw [if_neg hk, if_neg hno]

/-! ### Claims about the Stream Controller -/

/-- Claim C6: when the frame source cannot be opened, the run aborts with
the SystemExit message and a failing exit status before anything else
happens: no file sink is opened, no display window is created, no frame is
processed, and nothing is ever written to the CSV destination. -/
theorem source_unavailable_aborts (args : Args) (names : ℕ → String)
    (frames : List Frame) :
    (mainStream false args names frames).fatalMsg = some "Could not open source"
    ∧ exitCode (mainStream false args names frames) = 1
    ∧ (mainStream false args names frames).writerOpened = false
    ∧ (mainStream false args names frames).windowOpened = false
    ∧ (mainStream false args names frames).loopState.frames = 0
    ∧ (mainStream false args names frames).loopState.csvFile = none := by
  exact ⟨rfl, rfl, rfl, rfl, rfl, rfl⟩

/-- Counterexample to claim C5 as stated: running the loop on frames whose
wall-clock times are exactly the values `t0 = 0`, `t1 = 1`, `t2 = 2.1`
named by the claim
with a CSV destination configured does NOT produce writes at `t0` and `t2`:
the condition `time.time() - last_csv_time > 2` in the code is false at `t0 = 0`
(the sentinel `last_csv_time = 0` makes the elapsed time 0, not "infinite"),
so the only write happens at `t2 = 2.1`. -/
theorem debounce_counterexample :
    ¬ ((mainStream true ⟨0, false, some "counts.csv"⟩ (fun _ => "cat")
        [⟨[[]], 0, 0, true⟩, ⟨[[]], 0, 1, true⟩,
         ⟨[[]], 0, 21/10, true⟩]).loopState.writes
      = [0, 21/10]) := by
  have h1 : (mainStream true ⟨0, false, some "counts.csv"⟩ (fun _ => "cat")
      [⟨[[]], 0, 0, true⟩, ⟨[[]], 0, 1, true⟩,
       ⟨[[]], 0, 21/10, true⟩]).loopState.writes = [21/10] := by
    norm_num [mainStream, loopFrames, stepFrame]
  rw [h1]
  intro h
  have := List.head_eq_of_cons_eq h
  norm_num at this

/-- Claim C5 (amended): a snapshot write is attempted in a (non-stopping)
iteration iff STRICTLY more than the 2-unit debounce interval has elapsed
since `last_csv_time`, which is initialized to 0 rather than to a distinct
"never written" sentinel — so the first frame is eligible exactly when its
wall-clock time exceeds 2, which holds for any realistic clock. For frames
at times `t0`, `t0 + 1`, `t0 + 2.1` with `t0 > 2`, writes occur at the
first and third frames but not the second. -/
theorem debounce_spec (c : ℚ) (b : Bool) (path : String) (names : ℕ → String)
    (R1 R2 R3 : List (List Detection)) (t0 : ℚ) (h : 2 < t0) :
    (mainStream true ⟨c, b, some path⟩ names
        [⟨R1, 0, t0, true⟩, ⟨R2, 0, t0 + 1, true⟩,
         ⟨R3, 0, t0 + 21/10, true⟩]).loopState.writes
      = [t0, t0 + 21/10]
    ∧ ∀ (args : Args) (s : LoopState) (fr : Frame),
        ¬ fr.key % 256 = 27 → fr.writeOk = true →
        (stepFrame args names s fr).writes
          = if args.csv.isSome ∧ fr.t - s.last_csv_time > 2
            then s.writes ++ [fr.t] else s.writes := by
  constructor
  · norm_num [mainStream, loopFrames, stepFrame, h]
  · intro args s fr hk hw
    by_cases hc : args.csv.isSome ∧ fr.t - s.last_csv_time > 2
    · rw [if_pos hc, stepFrame_write args names s fr hk hc.1 hc.2 hw]
    · rw [if_neg hc, stepFrame_skip args names s fr hk hc]

/-- Witness for claim C5 (amended) at the concrete start time 100. -/
theorem debounce_spec_witness :
    (2 : ℚ) < 100
    ∧ (mainStream true ⟨0, false, some "counts.csv"⟩ (fun _ => "cat")
        [⟨[[]], 0, 100, true⟩, ⟨[[]], 0, 100 + 1, true⟩,
         ⟨[[]], 0, 100 + 21/10, true⟩]).loopState.writes
      = [100, 100 + 21/10] :=
  ⟨by norm_num,
    (debounce_spec 0 false "counts.csv" (fun _ => "cat") [[]] [[]] [[]] 100
      (by norm_num)).1⟩

/-- Counterexample to claim C7 as stated: a failed snapshot write during
streaming is NOT non-fatal — with an unwritable destination at the first
eligible write, the unhandled I/O error aborts the run, so the second frame
is never processed. -/
theorem snapshot_write_failure_counterexample :
    ¬ ((mainStream true ⟨0, false, some "counts.csv"⟩ (fun _ => "cat")
          [⟨[[]], 0, 100, false⟩, ⟨[[]], 0, 101, true⟩]).fatalMsg = none
        ∧ (mainStream true ⟨0, false, some "counts.csv"⟩ (fun _ => "cat")
          [⟨[[]], 0, 100, false⟩, ⟨[[]], 0, 101, true⟩]).loopState.frames = 2) := by
  have h1 : (mainStream true ⟨0, false, some "counts.csv"⟩ (fun _ => "cat")
      [⟨[[]], 0, 100, false⟩, ⟨[[]], 0, 101, true⟩]).fatalMsg
      = some "could not write csv" := by
    norm_num [mainStream, loopFrames, stepFrame]
  rw [h1]
  rintro ⟨h, -⟩
  exact Option.noConfusion h

/-- Claim C7 (amended): a failure to write the snapshot destination is an
unhandled exception in BOTH modes: during streaming it aborts the run at
that very iteration (no later frame is processed, no retry, nonzero exit,
no closing report), exactly as a failed unconditional write at the end of a
still run is fatal. -/
theorem snapshot_write_failure_fatal (c : ℚ) (b : Bool) (path : String)
    (names : ℕ → String) (fr : Frame) (rest : List Frame)
    (hk : ¬ fr.key % 256 = 27) (ht : fr.t - 0 > 2) (hw : fr.writeOk = false) :
    (mainStream true ⟨c, b, some path⟩ names (fr :: rest)).fatalMsg
        = some "could not write csv"
    ∧ (mainStream true ⟨c, b, some path⟩ names (fr :: rest)).loopState.frames = 1
    ∧ exitCode (mainStream true ⟨c, b, some path⟩ names (fr :: rest)) = 1
    ∧ (mainStream true ⟨c, b, some path⟩ names (fr :: rest)).reportedFinal = false
    ∧ ∀ results,
        (mainStill ⟨c, b, some path⟩ names results false).fatalMsg.isSome := by
  have hstep : stepFrame ⟨c, b, some path⟩ names {} fr
      = { (({} : LoopState)) with
          last_counts := count_per_class fr.results names c,
          frames := 1,
          fatal := some "could not write csv" } :=
    stepFrame_fail ⟨c, b, some path⟩ names {} fr hk rfl ht hw
  have hloop : loopFrames ⟨c, b, some path⟩ names (fr :: rest) {}
      = { (({} : LoopState)) with
          last_counts := count_per_class fr.results names c,
          frames := 1,
          fatal := some "could not write csv" } := by
    simp [loopFrames, hstep]
  refine ⟨?_, ?_, ?_, ?_, ?_⟩
  · simp [mainStream, hloop]
  · simp [mainStream, hloop]
  · simp [mainStream, exitCode, hloop]
  · simp [mainStream, hloop]
  · intro results
    simp [mainStill]

/-- Witness for claim C7 (amended) at a concrete input. -/
theorem snapshot_write_failure_fatal_witness :
    (¬ (⟨[[]], 0, 100, false⟩ : Frame).key % 256 = 27)
    ∧ ((⟨[[]], 0, 100, false⟩ : Frame).t - 0 > 2)
    ∧ (mainStream true ⟨0, false, some "counts.csv"⟩ (fun _ => "cat")
        [⟨[[]], 0, 100, false⟩, ⟨[[]], 0, 101, true⟩]).loopState.frames = 1 :=
  ⟨by norm_num, by norm_num,
    (snapshot_write_failure_fatal 0 false "counts.csv" (fun _ => "cat")
      ⟨[[]], 0, 100, false⟩ [⟨[[]], 0, 101, true⟩]
      (by norm_num) (by norm_num) rfl).2.1⟩

/-- Claim C1 (code evidence): at the end of a stream with a CSV destination
configured and snapshots produced, the Closed phase of the code performs NO
write at all — the destination keeps the content of the last debounced
write, which differs from the final snapshot, even though the closing
report claims the CSV was saved. Two frames at times 100 and 101 (one
detection, then two): only the write at time 100 ever happens. -/
theorem closed_phase_no_final_write :
    (mainStream true ⟨0, false, some "counts.csv"⟩ (fun _ => "cat")
        [⟨[[⟨⟨0, 0, 0, 0⟩, 1, 0⟩]], 0, 100, true⟩,
         ⟨[[⟨⟨0, 0, 0, 0⟩, 1, 0⟩, ⟨⟨0, 0, 0, 0⟩, 1, 0⟩]], 0, 101, true⟩]).writesAtClose
      = 0
    ∧ (mainStream true ⟨0, false, some "counts.csv"⟩ (fun _ => "cat")
        [⟨[[⟨⟨0, 0, 0, 0⟩, 1, 0⟩]], 0, 100, true⟩,
         ⟨[[⟨⟨0, 0, 0, 0⟩, 1, 0⟩, ⟨⟨0, 0, 0, 0⟩, 1, 0⟩]], 0, 101, true⟩]).loopState.writes
      = [100]
    ∧ (mainStream true ⟨0, false, some "counts.csv"⟩ (fun _ => "cat")
        [⟨[[⟨⟨0, 0, 0, 0⟩, 1, 0⟩]], 0, 100, true⟩,
         ⟨[[⟨⟨0, 0, 0, 0⟩, 1, 0⟩, ⟨⟨0, 0, 0, 0⟩, 1, 0⟩]], 0, 101, true⟩]).loopState.csvFile
      = some (save_counts_csv
          (count_per_class [[⟨⟨0, 0, 0, 0⟩, 1, 0⟩]] (fun _ => "cat") 0) [])
    ∧ (mainStream true ⟨0, false, some "counts.csv"⟩ (fun _ => "cat")
        [⟨[[⟨⟨0, 0, 0, 0⟩, 1, 0⟩]], 0, 100, true⟩,
         ⟨[[⟨⟨0, 0, 0, 0⟩, 1, 0⟩, ⟨⟨0, 0, 0, 0⟩, 1, 0⟩]], 0, 101, true⟩]).loopState.last_counts
      = count_per_class [[⟨⟨0, 0, 0, 0⟩, 1, 0⟩, ⟨⟨0, 0, 0, 0⟩, 1, 0⟩]]
          (fun _ => "cat") 0
    ∧ save_counts_csv
          (count_per_class [[⟨⟨0, 0, 0, 0⟩, 1, 0⟩]] (fun _ => "cat") 0) []
        ≠ save_counts_csv
          (count_per_class [[⟨⟨0, 0, 0, 0⟩, 1, 0⟩, ⟨⟨0, 0, 0, 0⟩, 1, 0⟩]]
            (fun _ => "cat") 0) []
    ∧ (mainStream true ⟨0, false, some "counts.csv"⟩ (fun _ => "cat")
        [⟨[[⟨⟨0, 0, 0, 0⟩, 1, 0⟩]], 0, 100, true⟩,
         ⟨[[⟨⟨0, 0, 0, 0⟩, 1, 0⟩, ⟨⟨0, 0, 0, 0⟩, 1, 0⟩]], 0, 101, true⟩]).reportedFinal
      = true := by
  refine ⟨?_, ?_, ?_, ?_, by decide, ?_⟩ <;>
    norm_num [mainStream, loopFrames, stepFrame, count_per_class]
  decide
